import Mathlib

/-!
Shallow embedding of the HazardPay signal engine
(`src/smart_signals.py`, `src/velocity_v2.py`).

Conventions of the embedding:
* Python `float` arithmetic is modelled with exact rationals (`ℚ`).
* `datetime` values are modelled as rational numbers of hours since an
  arbitrary epoch; `(a - b).total_seconds() / 3600` becomes `a - b`.
* Price records `{'price': p, 'recorded_at': t}` become `PriceSample`.
* Human-readable strings (reasons, warnings, descriptions,
  recommendations) are modelled by inductive types with one constructor
  per formatting site, carrying the numeric payloads that the Python
  format strings interpolate.
-/

/-- A single price record: `{'price': int, 'recorded_at': datetime}`.
The timestamp is in hours since an arbitrary epoch. -/
structure PriceSample where
  price : Int
  ts : ℚ
  deriving Repr, DecidableEq

/-- Buy readiness labels produced by `velocity_v2` (`buy_readiness`). -/
inductive Readiness
  | AVOID | WAIT | ALMOST | READY
  deriving Repr, DecidableEq

/-- Momentum state labels produced by `velocity_v2` (`state`). -/
inductive VState
  | FREEFALL | FALLING | DECELERATING | BOTTOMING | STABLE | RISING | SURGING | CHOPPY
  deriving Repr, DecidableEq

/-- The per-player hysteresis record stored by `_save_player_state`:
`{state, readiness, score, price, updated_at}` (the `player_id` and
`platform` keys are the lookup key, not part of the value). -/
structure PlayerState where
  state : VState
  readiness : Readiness
  score : Int
  price : Int
  updatedAt : ℚ
  deriving Repr, DecidableEq

/-- `readiness_levels = {"AVOID": 0, "WAIT": 1, "ALMOST": 2, "READY": 3}`
in `_apply_hysteresis` (the `.get(_, 1)` default is unreachable because
only these four labels are ever produced). -/
def readinessLevel : Readiness → Int
  | .AVOID => 0
  | .WAIT => 1
  | .ALMOST => 2
  | .READY => 3

/-- `price_change_pct = ((current_price - prev_price) / prev_price * 100)
if prev_price > 0 else 0` in `_apply_hysteresis`. -/
def priceChangePct (prevPrice currentPrice : Int) : ℚ :=
  if prevPrice > 0 then ((currentPrice : ℚ) - prevPrice) / prevPrice * 100 else 0

/-- `SmartSignals._apply_hysteresis`.  Given the stored prior state (or
`none` on first sight of a player), the freshly computed
`(state, readiness, score)`, the current price and the current time,
returns the smoothed `(state, readiness, score)` triple. -/
def applyHysteresis (prev? : Option PlayerState) (newState : VState)
    (newReadiness : Readiness) (newScore : Int) (currentPrice : Int)
    (now : ℚ) : VState × Readiness × Int :=
  match prev? with
  | none => (newState, newReadiness, newScore)
  | some prev =>
    let hoursSinceUpdate : ℚ := now - prev.updatedAt
    let pct := priceChangePct prev.price currentPrice
    -- STICKY READY: once READY, stay for 2h unless price drops >3%
    if prev.readiness = .READY ∧ hoursSinceUpdate < 2 ∧ pct > -3 ∧
        newReadiness ≠ .READY then
      (prev.state, .READY, max (prev.score - 5) newScore)
    else
      -- HYSTERESIS: require significant change to switch
      let scoreDiff := newScore - prev.score
      let newLevel := readinessLevel newReadiness
      let prevLevel := readinessLevel prev.readiness
      if newLevel > prevLevel then
        if scoreDiff < 10 then (prev.state, prev.readiness, prev.score)
        else (newState, newReadiness, newScore)
      else if newLevel < prevLevel then
        if scoreDiff > -15 then (prev.state, prev.readiness, prev.score)
        else (newState, newReadiness, newScore)
      else (newState, newReadiness, newScore)

/-- The record written by `_save_player_state` after hysteresis on the
buy path: `{state, readiness, score, price: current_price,
updated_at: now}`. -/
def mkSavedState (smoothed : VState × Readiness × Int) (currentPrice : Int)
    (now : ℚ) : PlayerState :=
  ⟨smoothed.1, smoothed.2.1, smoothed.2.2, currentPrice, now⟩

/-! ## Generic helpers shared by the `velocity_v2` embedding -/

/-- Python `int(q)`: truncation toward zero. -/
def pyTrunc (q : ℚ) : Int := if 0 ≤ q then ⌊q⌋ else ⌈q⌉

/-- Python `round(x)` (banker's rounding, half to even), idealized on ℚ. -/
def roundHalfEven (q : ℚ) : Int :=
  let f := ⌊q⌋
  let r := q - f
  if r < 1/2 then f else if 1/2 < r then f + 1 else if f % 2 = 0 then f else f + 1

/-- Python `round(x, 2)`. -/
def round2 (q : ℚ) : ℚ := (roundHalfEven (q * 100) : ℚ) / 100

/-- Python `round(x, 1)`. -/
def round1 (q : ℚ) : ℚ := (roundHalfEven (q * 10) : ℚ) / 10

/-- Python `min(list_of_ints)` (0 on `[]`, which never occurs at call sites). -/
def listMin : List Int → Int
  | [] => 0
  | [x] => x
  | x :: y :: r => min x (listMin (y :: r))

/-- Python `max(list_of_ints)` (0 on `[]`, which never occurs at call sites). -/
def listMax : List Int → Int
  | [] => 0
  | [x] => x
  | x :: y :: r => max x (listMax (y :: r))

/-- The values at strict local minima: positions `i ∈ [1, n-2]` with
`l[i] < l[i-1]` and `l[i] < l[i+1]`, in list order.  This is the loop
shared by `_find_support_levels` and `_detect_higher_lows`. -/
def localMinima : List Int → List Int
  | a :: b :: c :: r => (if b < a ∧ b < c then [b] else []) ++ localMinima (b :: c :: r)
  | _ => []

/-- Distinct elements in order of first occurrence (Python dict key order). -/
def firstOccs (l : List Int) : List Int :=
  l.foldl (fun acc x => if x ∈ acc then acc else acc ++ [x]) []

/-- Insert into a descending-sorted list. -/
def insertDesc (x : Int) : List Int → List Int
  | [] => [x]
  | y :: ys => if x ≥ y then x :: y :: ys else y :: insertDesc x ys

/-- Python `sorted(keys, reverse=True)` on distinct integer keys. -/
def sortDescInt (l : List Int) : List Int := l.foldr insertDesc []

/-! ## `velocity_v2.py` -/

/-- Confidence labels from `_calculate_confidence`. -/
inductive ConfLabel
  | HIGH | MEDIUM | LOW
  deriving Repr, DecidableEq

/-- `VelocityAnalysisV2.description` strings, one constructor per
formatting site, carrying the interpolated values. -/
inductive Desc
  | freefallDesc (v1h : ℚ)
  | fallingSlowingDesc (v1h v6h : ℚ)
  | bottomingHigherLowsDesc
  | bottomingSupportDesc
  | fallingStartingToSlowDesc
  | fallingDesc (v1h : ℚ)
  | surgingDesc (v1h : ℚ)
  | risingDesc (v1h : ℚ)
  | stableDesc (v1h : ℚ)
  | choppyDesc (v1h : ℚ)
  deriving Repr, DecidableEq

/-- `VelocityAnalysisV2.buy_readiness_reason` strings. -/
inductive ReadyReason
  | sustainedRapidDecline
  | strongReversalSignals
  | nearSupport (level : Int) (bounced : Nat)
  | slowingNotConfirmed
  | earlyDeceleration
  | activeDecline
  | alreadySurging
  | risingWaitForPullback
  | stableAfterLowHigherLows
  | stableNearRecentLow
  | lowWasTwoThreeDaysAgo
  | stableNoRecentLow
  | unpredictableMovement
  deriving Repr, DecidableEq

/-- The `VelocityAnalysisV2` dataclass. -/
structure VelocityAnalysisV2 where
  velocity_1h : ℚ
  velocity_2h : ℚ
  velocity_6h : ℚ
  velocity_24h : ℚ
  acceleration : ℚ
  is_decelerating : Bool
  deceleration_hours : ℚ
  state : VState
  has_higher_lows : Bool
  support_level : Option Int
  times_bounced_at_support : Nat
  hours_since_low : ℚ
  days_in_trend : Int
  confidence : ConfLabel
  confidence_score : Int
  data_points : Nat
  hours_of_data : ℚ
  description : Desc
  buy_readiness : Readiness
  buy_readiness_reason : ReadyReason
  deriving Repr, DecidableEq

/-- The window search of `calculate_velocity_v2`: for a lookback target
`t` hours, the first sample (in newest-first list order) whose age lies
in `[0.5*t, 1.5*t]`, together with its actual age.  (The Python loop
iterates samples outer, targets inner, and assigns each window key only
once, which picks exactly the first matching sample per target.) -/
def findWindow (prices : List PriceSample) (now : ℚ) (t : ℚ) : Option (Int × ℚ) :=
  (prices.find? (fun p => decide (t * (1/2) ≤ now - p.ts ∧ now - p.ts ≤ t * (3/2)))).map
    (fun p => (p.price, now - p.ts))

/-- `calc_velocity`: percent change per hour against a window sample,
0 when the window is unavailable or its price or age is 0. -/
def calcVelocity (current : Int) (w : Option (Int × ℚ)) : ℚ :=
  match w with
  | none => 0
  | some (old, hours) =>
    if old = 0 ∨ hours = 0 then 0
    else ((current : ℚ) - old) / old * 100 / hours

/-- `v_1h`. -/
def vel1h (prices : List PriceSample) (current : Int) (now : ℚ) : ℚ :=
  calcVelocity current (findWindow prices now 1)

/-- `v_2h`. -/
def vel2h (prices : List PriceSample) (current : Int) (now : ℚ) : ℚ :=
  calcVelocity current (findWindow prices now 2)

/-- `v_6h = calc_velocity('6h') or v_2h` — Python `or` falls back to the
2h velocity when the 6h computation is unavailable *or yields exactly 0*. -/
def vel6h (prices : List PriceSample) (current : Int) (now : ℚ) : ℚ :=
  let c := calcVelocity current (findWindow prices now 6)
  if c = 0 then vel2h prices current now else c

/-- `v_24h = calc_velocity('24h') or v_6h`. -/
def vel24h (prices : List PriceSample) (current : Int) (now : ℚ) : ℚ :=
  let c := calcVelocity current (findWindow prices now 24)
  if c = 0 then vel6h prices current now else c

/-- The acceleration block: velocity over 0–2h minus velocity over the
2h–4h stretch, 0 unless both the 2h and 4h windows exist and the guard
`p_4h > 0 and (h_4h - h_2h) > 0` holds. -/
def accelerationOf (prices : List PriceSample) (current : Int) (now : ℚ) : ℚ :=
  match findWindow prices now 2, findWindow prices now 4 with
  | some (p2h, h2h), some (p4h, h4h) =>
    if p4h > 0 ∧ h4h - h2h > 0 then
      calcVelocity current (some (p2h, h2h)) - ((p2h : ℚ) - p4h) / p4h * 100 / (h4h - h2h)
    else 0
  | _, _ => 0

/-- The deceleration block: `(is_decelerating, deceleration_hours)`. -/
def decelerationOf (prices : List PriceSample) (current : Int) (now : ℚ) : Bool × ℚ :=
  let v2 := vel2h prices current now
  if v2 < -(3/10) ∧ accelerationOf prices current now > 1/5 then
    let d1 : ℚ := if vel1h prices current now > v2 then 1 else 0
    let d2 : ℚ := if v2 > vel6h prices current now then max d1 2 else d1
    (true, d2)
  else (false, 0)

/-- The series-wide minimum price (`min(all_prices)`). -/
def minPriceOf (prices : List PriceSample) : Int := listMin (prices.map (·.price))

/-- Timestamp of the first occurrence of the minimum price
(`all_prices.index(min_price)`). -/
def lowTimestamp (prices : List PriceSample) : ℚ :=
  ((prices.find? (fun p => decide (p.price = minPriceOf prices))).map (·.ts)).getD 0

/-- `hours_since_low` before rounding. -/
def hoursSinceLow (prices : List PriceSample) (now : ℚ) : ℚ :=
  now - lowTimestamp prices

/-- Calendar-day key of a sample (`ts.strftime('%Y-%m-%d')`, modelled as
the day number `⌊ts / 24⌋` of the hour-denominated timestamp). -/
def dayKey (p : PriceSample) : Int := ⌊p.ts / 24⌋

/-- Mean price over the samples of one calendar day. -/
def dayAvg (prices : List PriceSample) (k : Int) : ℚ :=
  let l := (prices.filter (fun p => decide (dayKey p = k))).map (·.price)
  (l.sum : ℚ) / l.length

/-- Daily averages keyed newest day first (`sorted(keys, reverse=True)`). -/
def dailyAvgs (prices : List PriceSample) : List ℚ :=
  (sortDescInt (firstOccs (prices.map dayKey))).map (dayAvg prices)

/-- The consecutive-day streak loop of `_calculate_trend_days`. -/
def trendStreak (d : Int) : List ℚ → Nat
  | a :: b :: r =>
    if (if a > b then (1 : Int) else if a < b then -1 else 0) = d then
      1 + trendStreak d (b :: r)
    else 0
  | _ => 0

/-- `_calculate_trend_days`: signed count of consecutive days moving in
the direction of the most recent day-over-day change. -/
def trendDays (prices : List PriceSample) : Int :=
  match dailyAvgs prices with
  | a :: b :: r =>
    let d : Int := if a > b then 1 else -1
    (trendStreak d (a :: b :: r) : Int) * d
  | _ => 0

/-- `_detect_higher_lows` with its default `window_days = 7`.  NOTE: the
input list is newest-first (that is how `calculate_velocity_v2` is
documented and called), so `lows[:mid]` — called `early_lows` in the
source — is actually the *most recent* half and `lows[mid:]` the oldest. -/
def detectHigherLows (prices : List PriceSample) (now : ℚ) : Bool :=
  if prices.length < 10 then false
  else
    let cutoff := now - 7 * 24
    let window := prices.filter (fun p => decide (cutoff ≤ p.ts))
    if window.length < 5 then false
    else
      let lows := localMinima (window.map (·.price))
      if lows.length < 2 then false
      else
        let mid := lows.length / 2
        let early := lows.take mid
        let recent := lows.drop mid
        if early = [] ∨ recent = [] then false
        else
          decide ((recent.sum : ℚ) / recent.length >
            (early.sum : ℚ) / early.length * (102/100))

/-- Python `max(items, key=count)`: the first key (in first-occurrence
order) whose count is maximal. -/
def bestBucket (l : List Int) : Option (Int × Nat) :=
  (firstOccs l).foldl (fun acc k =>
    let c := l.count k
    match acc with
    | none => some (k, c)
    | some (_, c0) => if c0 < c then some (k, c) else acc) none

/-- `_find_support_levels`: bucket the strict local minima into buckets
of width `max(1, int(min_price * 0.02))` and return the most-populated
bucket with its count. -/
def findSupportLevels (prices : List PriceSample) : Option Int × Nat :=
  if prices.length < 20 then (none, 0)
  else
    let vals := prices.map (·.price)
    let mn := listMin vals
    let mx := listMax vals
    if mx = mn then (none, 0)
    else
      let bucketSize : Int := max 1 (pyTrunc ((mn : ℚ) * (2/100)))
      let buckets := (localMinima vals).map (fun p => p.fdiv bucketSize * bucketSize)
      match bestBucket buckets with
      | none => (none, 0)
      | some (b, c) => (some b, c)

/-- `_calculate_confidence`. -/
def calcConfidence (dataPoints : Nat) (hoursOfData : ℚ) (priceVariance : ℚ) :
    ConfLabel × Int :=
  let s1 : Int := 50 +
    (if dataPoints ≥ 100 then 25 else if dataPoints ≥ 50 then 15
     else if dataPoints ≥ 20 then 5 else -15)
  let s2 := s1 +
    (if hoursOfData ≥ 168 then 15 else if hoursOfData ≥ 48 then 8
     else if hoursOfData ≥ 12 then 3 else -10)
  let s3 := s2 +
    (if priceVariance < 5 then 10 else if priceVariance < 10 then 5
     else if priceVariance > 30 then -10 else 0)
  let s := max 0 (min 100 s3)
  (if s ≥ 75 then .HIGH else if s ≥ 50 then .MEDIUM else .LOW, s)

/-- The momentum-state classification block of `calculate_velocity_v2`,
acting on the *unrounded* velocities.  Returns
`(state, description, buy_readiness, buy_readiness_reason)`. -/
def classifyMomentum (v1h v2h v6h : ℚ) (isDec : Bool) (decH : ℚ)
    (hasHL : Bool) (hoursLow : ℚ) (support : Option Int) (bounced : Nat) :
    VState × Desc × Readiness × ReadyReason :=
  if v1h < -(1/2) ∧ v2h < -(3/10) then
    -- sustained falling
    if v1h < -2 ∧ v2h < -(3/2) then
      (.FREEFALL, .freefallDesc v1h, .AVOID, .sustainedRapidDecline)
    else if isDec = true ∧ decH ≥ 2 then
      if hasHL = true then
        (.BOTTOMING, .bottomingHigherLowsDesc, .ALMOST, .strongReversalSignals)
      else if hoursLow > 12 ∧ bounced ≥ 2 then
        (.BOTTOMING, .bottomingSupportDesc, .ALMOST, .nearSupport (support.getD 0) bounced)
      else
        (.DECELERATING, .fallingSlowingDesc v1h v6h, .WAIT, .slowingNotConfirmed)
    else if isDec = true then
      (.DECELERATING, .fallingStartingToSlowDesc, .WAIT, .earlyDeceleration)
    else
      (.FALLING, .fallingDesc v1h, .AVOID, .activeDecline)
  else if v1h > 1/2 ∧ v2h > 3/10 then
    -- sustained rising
    if v1h > 2 then (.SURGING, .surgingDesc v1h, .WAIT, .alreadySurging)
    else (.RISING, .risingDesc v1h, .WAIT, .risingWaitForPullback)
  else if |v1h| < 3/10 ∧ |v2h| < 1/5 then
    if hoursLow ≤ 48 ∧ hasHL = true then
      (.STABLE, .stableDesc v1h, .READY, .stableAfterLowHigherLows)
    else if hoursLow ≤ 24 then
      (.STABLE, .stableDesc v1h, .READY, .stableNearRecentLow)
    else if hoursLow ≤ 72 then
      (.STABLE, .stableDesc v1h, .ALMOST, .lowWasTwoThreeDaysAgo)
    else
      (.STABLE, .stableDesc v1h, .WAIT, .stableNoRecentLow)
  else
    (.CHOPPY, .choppyDesc v1h, .WAIT, .unpredictableMovement)

/-- `current = current_price or prices[0]['price']` — Python `or` also
replaces an explicit current price of 0 by the newest sample's price. -/
def currentOf (p0 : PriceSample) (cur : Option Int) : Int :=
  match cur with
  | some c => if c = 0 then p0.price else c
  | none => p0.price

/-- `hours_of_data` before rounding (`now - ts(prices[-1])`). -/
def hoursOfData (prices : List PriceSample) (now : ℚ) : ℚ :=
  now - ((prices.getLast?.map (·.ts)).getD 0)

/-- `price_variance` used for confidence. -/
def priceVarianceOf (prices : List PriceSample) : ℚ :=
  let vals := prices.map (·.price)
  if listMin vals > 0 then
    ((listMax vals : ℚ) - listMin vals) / listMin vals * 100
  else 0

/-- The body of `calculate_velocity_v2` on a series that passed the
length check, with the explicit current price already resolved. -/
def mkVelocityAnalysis (prices : List PriceSample) (current : Int) (now : ℚ) :
    VelocityAnalysisV2 :=
  let v1 := vel1h prices current now
  let v2 := vel2h prices current now
  let v6 := vel6h prices current now
  let v24 := vel24h prices current now
  let acc := accelerationOf prices current now
  let dec := decelerationOf prices current now
  let hl := hoursSinceLow prices now
  let dit := trendDays prices
  let hhl := detectHigherLows prices now
  let sup := findSupportLevels prices
  let hod := hoursOfData prices now
  let conf := calcConfidence prices.length hod (priceVarianceOf prices)
  let cls := classifyMomentum v1 v2 v6 dec.1 dec.2 hhl hl sup.1 sup.2
  { velocity_1h := round2 v1
    velocity_2h := round2 v2
    velocity_6h := round2 v6
    velocity_24h := round2 v24
    acceleration := round2 acc
    is_decelerating := dec.1
    deceleration_hours := dec.2
    state := cls.1
    has_higher_lows := hhl
    support_level := sup.1
    times_bounced_at_support := sup.2
    hours_since_low := round1 hl
    days_in_trend := dit
    confidence := conf.1
    confidence_score := conf.2
    data_points := prices.length
    hours_of_data := round1 hod
    description := cls.2.1
    buy_readiness := cls.2.2.1
    buy_readiness_reason := cls.2.2.2 }

/-- `calculate_velocity_v2(prices, current_price)` at time `now`.
Returns `none` exactly when the series has fewer than 3 samples (the
missing-timestamp-field guard of the source cannot fire in this
embedding, where every sample carries a timestamp). -/
def calculateVelocityV2 : List PriceSample → Option Int → ℚ → Option VelocityAnalysisV2
  | [], _, _ => none
  | p0 :: rest, cur, now =>
    if (p0 :: rest).length < 3 then none
    else some (mkVelocityAnalysis (p0 :: rest) (currentOf p0 cur) now)

/-- Reason strings of `check_stabilization_v2`, one constructor per
formatting site.  Of all of them, only `stillMakingNewLows` ("Still
making new lows") lowercases to a string containing `"new low"`, the
substring probed by `_calculate_timing_score`. -/
inductive StabReason
  | insufficientData
  | tooFewPointsInWindow (n : Nat)
  | invalidPriceData
  | volatile (variancePct : ℚ)
  | stillMakingNewLows
  | consolidatingFor (h : ℚ)
  | stableFor (h : ℚ) (variancePct : ℚ)
  deriving Repr, DecidableEq

/-- `check_stabilization_v2(prices, min_hours, max_variance_pct)` at time
`now`: `(is_stabilized, reason, hours_stable)`. -/
def checkStabilizationV2 (prices : List PriceSample) (minHours maxVariancePct : ℚ)
    (now : ℚ) : Bool × StabReason × ℚ :=
  if prices.length < 5 then (false, .insufficientData, 0)
  else
    let window := prices.filterMap (fun p =>
      let age := now - p.ts
      if age ≤ minHours then some (p.price, age) else none)
    if window.length < 5 then (false, .tooFewPointsInWindow window.length, 0)
    else
      let vals := window.map (·.1)
      let mn := listMin vals
      let mx := listMax vals
      if mn = 0 then (false, .invalidPriceData, 0)
      else
        let variancePct := ((mx : ℚ) - mn) / mn * 100
        if variancePct > maxVariancePct then (false, .volatile variancePct, 0)
        else
          let mid := window.length / 2
          let olderHalf := window.drop mid
          let newerHalf := window.take mid
          let olderLow := listMin (olderHalf.map (·.1))
          let newerLow := listMin (newerHalf.map (·.1))
          if (newerLow : ℚ) < (olderLow : ℚ) * (98/100) then
            (false, .stillMakingNewLows, 0)
          else
            let hmax := (pyTrunc minHours).toNat
            let stableH : ℚ := (List.range hmax).foldl (fun acc i =>
              let h : ℚ := (i : ℚ) + 1
              let hp := (window.filter (fun pr => decide (pr.2 ≤ h))).map (·.1)
              if 2 ≤ hp.length ∧
                  ((listMax hp : ℚ) - listMin hp) / listMin hp * 100 ≤ maxVariancePct then
                h
              else acc) 0
            if (newerLow : ℚ) > (olderLow : ℚ) * (101/100) then
              (true, .consolidatingFor stableH, stableH)
            else (true, .stableFor stableH variancePct, stableH)

/-! ## `smart_signals.py` -/

/-- `MarketPulse.status` values (`'CRASHED', 'CRASHING', 'STABLE',
'RECOVERING', 'INFLATED'`). -/
inductive PulseStatus
  | CRASHED | CRASHING | STABLE | RECOVERING | INFLATED
  deriving Repr, DecidableEq

/-- The externally supplied market pulse, with the numeric fields the
scoring code interpolates into messages. -/
structure Pulse where
  status : PulseStatus
  pctAtLows : ℚ
  pctAtHighs : ℚ
  pctTrendingDown : ℚ
  avgPositionInRange : ℚ
  deriving Repr, DecidableEq

/-- The long-term daily-price summary returned by
`FutbinScraper.get_longterm_daily_prices` (`cache_only=True`).  Optional
fields model the dict keys read through `.get(key, default)`. -/
structure Longterm where
  dataPoints : Nat
  positionInRange : ℚ
  recentPosition : Option ℚ
  bounceFromLow : Option ℚ
  recentLow : Option Int
  allTimeLow : Int
  deriving Repr, DecidableEq

/-- Outcome of the long-term fetch: the scraper call raised (`fail`) or
returned a value that may itself be `None`. -/
inductive LongtermFetch
  | fail
  | ok (lt : Option Longterm)
  deriving Repr, DecidableEq

/-- Reason/warning strings of the buy and sell scorers, one constructor
per `append` site, with the interpolated numbers as payloads. -/
inductive Note
  | marketCrashed (pctAtLows : ℚ)
  | marketCrashing (pctTrendingDown : ℚ)
  | marketInflated (pctAtHighs : ℚ)
  | marketRecovering (avgPosition : ℚ)
  | velocityDescNote (d : Desc)
  | velocityReasonNote (r : ReadyReason)
  | noVelocityData
  | stableConfirmed (hours : ℚ)
  | stabilizationWarning (r : StabReason)
  | supportHeld (level : Int) (times : Nat)
  | downtrendFor (days : Int)
  | alreadyUpFor (days : Int)
  | alreadyBounced (pct : ℚ)
  | lowVsNow (low : Int) (current : Int)
  | upFromRecentLow (pct : ℚ)
  | bouncedAlready (pct : ℚ)
  | nearThirtyDayHigh (pos : ℚ)
  | upperRange (pos : ℚ)
  | nearThirtyDayLow (pos : ℚ)
  | lowerRange (pos : ℚ)
  | belowMid (pos : ℚ)
  | noHistoricalRange
  | insufficientData
  | needMoreHistory
  | profitExcellent (pct : ℚ) (coins : Int)
  | profitGood (pct : ℚ) (coins : Int)
  | profitModest (pct : ℚ) (coins : Int)
  | losingConsiderCutting (pct : ℚ)
  | currentlyDown (pct : ℚ)
  | sellVelocityNote (s : VState) (d : Desc)
  | sellMarketCrashing
  | sellMarketInflated
  | sellMarketCrashed
  | nearAllTimeHigh (pos : ℚ)
  | sellUpperRange (pos : ℚ)
  | nearFloor (pos : ℚ)
  deriving Repr, DecidableEq

/-- `TradeSignal.signal_type` values. -/
inductive SignalType
  | STRONG_BUY | BUY | HOLD | WAIT | AVOID | STRONG_SELL | SELL
  deriving Repr, DecidableEq

/-- `TradeSignal.recommendation` strings. -/
inductive RecNote
  | goodEntryAt (price : Int)
  | goodOpportunityAt (price : Int)
  | okayConsiderWaiting
  | poorTimingWait
  | badTimingDoNotBuy
  | waitForMoreData
  | takeProfitAt (price : Int) (pct : ℚ)
  | goodTimeToSellAt (price : Int)
  | couldSellNotOptimal
  | waitForBetterExit
  | badTimingHoldOrCut
  deriving Repr, DecidableEq

/-- The `TradeSignal` dataclass (sans the echoed player id/name). -/
structure TradeSignal where
  signalType : SignalType
  score : Int
  reasons : List Note
  warnings : List Note
  currentPrice : Int
  recommendation : RecNote
  velocity : Option VelocityAnalysisV2
  confidence : ConfLabel
  deriving Repr, DecidableEq

/-- Component breakdown logged by `get_buy_score` via `_log_signal`. -/
structure BuyComponents where
  base : Int
  market : Int
  timing : Int
  position : Int
  bouncePenalty : Int
  deriving Repr, DecidableEq

/-- Component breakdown logged by `get_sell_score` via `_log_signal`. -/
structure SellComponents where
  base : Int
  profit : Int
  velocity : Int
  market : Int
  position : Int
  deriving Repr, DecidableEq

/-- `_calculate_timing_score`: `(score, reasons, warnings)` with the
score clamped to `[-30, 30]`. -/
def timingScoreOf (velocity : Option VelocityAnalysisV2)
    (stab : Bool × StabReason × ℚ) : Int × List Note × List Note :=
  match velocity with
  | none => (0, [], [.noVelocityData])
  | some v =>
    let base : Int × List Note × List Note :=
      match v.buy_readiness with
      | .READY => (22, [.velocityDescNote v.description, .velocityReasonNote v.buy_readiness_reason], [])
      | .ALMOST => (10, [.velocityDescNote v.description], [.velocityReasonNote v.buy_readiness_reason])
      | .WAIT => (-5, [], [.velocityDescNote v.description, .velocityReasonNote v.buy_readiness_reason])
      | .AVOID => (-25, [], [.velocityDescNote v.description, .velocityReasonNote v.buy_readiness_reason])
    let favorable := v.buy_readiness = .READY ∨ v.buy_readiness = .ALMOST
    let stabStep : Int × List Note × List Note :=
      if stab.1 = true ∧ stab.2.2 ≥ 4 ∧ favorable then
        (base.1 + 5, base.2.1 ++ [.stableConfirmed stab.2.2], base.2.2)
      else if stab.1 = false ∧ stab.2.1 = .stillMakingNewLows then
        (base.1 - 5, base.2.1, base.2.2 ++ [.stabilizationWarning stab.2.1])
      else base
    let supStep : Int × List Note × List Note :=
      if (v.support_level.getD 0) ≠ 0 ∧ v.times_bounced_at_support ≥ 2 ∧ favorable then
        (stabStep.1 + 3,
         stabStep.2.1 ++ [.supportHeld (v.support_level.getD 0) v.times_bounced_at_support],
         stabStep.2.2)
      else stabStep
    let trendStep : Int × List Note × List Note :=
      if v.days_in_trend < -3 then
        (supStep.1 - 3, supStep.2.1, supStep.2.2 ++ [.downtrendFor (-v.days_in_trend)])
      else if v.days_in_trend > 2 then
        (supStep.1, supStep.2.1, supStep.2.2 ++ [.alreadyUpFor v.days_in_trend])
      else supStep
    (max (-30) (min 30 trendStep.1), trendStep.2.1, trendStep.2.2)

/-- Market-pulse component of the buy score (`±15`). -/
def buyMarketScore (pulse : Option Pulse) : Int :=
  match pulse with
  | none => 0
  | some pu =>
    match pu.status with
    | .CRASHED => 15
    | .CRASHING => -15
    | .INFLATED => -15
    | .RECOVERING => 5
    | .STABLE => 0

/-- Reasons appended by the buy market-pulse block. -/
def buyMarketReasons (pulse : Option Pulse) : List Note :=
  match pulse with
  | none => []
  | some pu =>
    match pu.status with
    | .CRASHED => [.marketCrashed pu.pctAtLows]
    | .RECOVERING => [.marketRecovering pu.avgPositionInRange]
    | _ => []

/-- Warnings appended by the buy market-pulse block.  Note: when the
pulse is unavailable (fetch raised or returned `None`), *no* warning is
appended — the exception is only logged at debug level. -/
def buyMarketWarnings (pulse : Option Pulse) : List Note :=
  match pulse with
  | none => []
  | some pu =>
    match pu.status with
    | .CRASHING => [.marketCrashing pu.pctTrendingDown]
    | .INFLATED => [.marketInflated pu.pctAtHighs]
    | _ => []

/-- The historical-position block of `get_buy_score`:
`(position_score, bounce_penalty, reasons, warnings)`.  A failed fetch
appends the no-historical-range warning; a `None` result or one with
fewer than 30 data points contributes nothing silently. -/
def buyLongtermBlock (fetch : LongtermFetch) (currentPrice : Int) :
    Int × Int × List Note × List Note :=
  match fetch with
  | .fail => (0, 0, [], [.noHistoricalRange])
  | .ok none => (0, 0, [], [])
  | .ok (some lt) =>
    if lt.dataPoints ≥ 30 then
      let recentPos := lt.recentPosition.getD lt.positionInRange
      let bounce := lt.bounceFromLow.getD 0
      let recentLow := lt.recentLow.getD lt.allTimeLow
      let bp : Int × List Note :=
        if bounce ≥ 50 then (-20, [.alreadyBounced bounce, .lowVsNow recentLow currentPrice])
        else if bounce ≥ 30 then (-12, [.upFromRecentLow bounce])
        else if bounce ≥ 15 then (-5, [.bouncedAlready bounce])
        else (0, [])
      let ps : Int × List Note × List Note :=
        if recentPos ≥ 80 then (-15, [], [.nearThirtyDayHigh recentPos])
        else if recentPos ≥ 60 then (-8, [], [.upperRange recentPos])
        else if recentPos ≤ 15 then (15, [.nearThirtyDayLow recentPos], [])
        else if recentPos ≤ 30 then (8, [.lowerRange recentPos], [])
        else if recentPos ≤ 45 then (3, [.belowMid recentPos], [])
        else (0, [], [])
      (ps.1, bp.1, ps.2.1, bp.2 ++ ps.2.2)
    else (0, 0, [], [])

/-- Everything `get_buy_score` feeds to one evaluation: the player
lookup result, latest-price record, 7-day history, the two external
dependencies, the stored hysteresis state and the evaluation time. -/
structure BuyEnv where
  playerExists : Bool
  latest : Option Int
  history : List PriceSample
  pulse : Option Pulse
  longterm : LongtermFetch
  prior : Option PlayerState
  now : ℚ
  deriving Repr, DecidableEq

/-- Result of one buy evaluation: the emitted signal, the state written
to the store (`none` when the insufficient-data early return skips
`_save_player_state`), and the logged component breakdown. -/
structure BuyOutcome where
  signal : TradeSignal
  saved : Option PlayerState
  components : Option BuyComponents
  deriving Repr, DecidableEq

/-- The velocity analysis used on the buy path. -/
def buyVelocity (env : BuyEnv) (cur : Int) : Option VelocityAnalysisV2 :=
  calculateVelocityV2 env.history (some cur) env.now

/-- The stabilization result used on the buy path
(`min_hours=6.0, max_variance_pct=5.0`). -/
def buyStab (env : BuyEnv) : Bool × StabReason × ℚ :=
  checkStabilizationV2 env.history 6 5 env.now

/-- The raw (pre-clamp) buy score: base 40 plus the market, timing,
position and bounce components. -/
def buyRawScore (env : BuyEnv) (cur : Int) : Int :=
  let lt := buyLongtermBlock env.longterm cur
  40 + buyMarketScore env.pulse + (timingScoreOf (buyVelocity env cur) (buyStab env)).1 +
    lt.1 + lt.2.1

/-- `score = max(0, min(100, score))` on the buy path. -/
def buyClamped (env : BuyEnv) (cur : Int) : Int :=
  max 0 (min 100 (buyRawScore env cur))

/-- `raw_state` fed to hysteresis (`velocity.state`, default STABLE). -/
def buyRawState (env : BuyEnv) (cur : Int) : VState :=
  ((buyVelocity env cur).map (·.state)).getD .STABLE

/-- `raw_readiness` fed to hysteresis (`velocity.buy_readiness`,
default WAIT). -/
def buyRawReadiness (env : BuyEnv) (cur : Int) : Readiness :=
  ((buyVelocity env cur).map (·.buy_readiness)).getD .WAIT

/-- The smoothed `(state, readiness, score)` triple on the buy path. -/
def buySmoothed (env : BuyEnv) (cur : Int) : VState × Readiness × Int :=
  applyHysteresis env.prior (buyRawState env cur) (buyRawReadiness env cur)
    (buyClamped env cur) cur env.now

/-- Mapping of the final (smoothed) buy score to a category and
recommendation. -/
def buyCategory (score : Int) (cur : Int) : SignalType × RecNote :=
  if score ≥ 75 then (.STRONG_BUY, .goodEntryAt cur)
  else if score ≥ 60 then (.BUY, .goodOpportunityAt cur)
  else if score ≥ 45 then (.HOLD, .okayConsiderWaiting)
  else if score ≥ 30 then (.WAIT, .poorTimingWait)
  else (.AVOID, .badTimingDoNotBuy)

/-- The degenerate insufficient-data result of `get_buy_score` (score 0,
WAIT, no state saved, nothing logged with components). -/
def buyDegenerate (currentPrice : Int) : BuyOutcome :=
  { signal :=
      { signalType := .WAIT
        score := 0
        reasons := [.insufficientData]
        warnings := [.needMoreHistory]
        currentPrice := currentPrice
        recommendation := .waitForMoreData
        velocity := none
        confidence := .MEDIUM }
    saved := none
    components := none }

/-- The full-path body of `get_buy_score` once the data checks passed. -/
def buyMain (env : BuyEnv) (cur : Int) : BuyOutcome :=
  let velocity := buyVelocity env cur
  let timing := timingScoreOf velocity (buyStab env)
  let lt := buyLongtermBlock env.longterm cur
  let sm := buySmoothed env cur
  { signal :=
      { signalType := (buyCategory sm.2.2 cur).1
        score := sm.2.2
        reasons := buyMarketReasons env.pulse ++ timing.2.1 ++ lt.2.2.1
        warnings := buyMarketWarnings env.pulse ++ timing.2.2 ++ lt.2.2.2
        currentPrice := cur
        recommendation := (buyCategory sm.2.2 cur).2
        velocity := velocity
        confidence := (velocity.map (·.confidence)).getD .LOW }
    saved := some (mkSavedState sm cur env.now)
    components := some
      { base := 40
        market := buyMarketScore env.pulse
        timing := timing.1
        position := lt.1
        bouncePenalty := lt.2.1 } }

/-- `SmartSignals.get_buy_score`: `none` iff the player lookup fails;
the degenerate result iff the latest price is missing or the history has
fewer than 2 samples; otherwise the full scoring path. -/
def getBuyScore (env : BuyEnv) : Option BuyOutcome :=
  if env.playerExists = false then none
  else
    match env.latest with
    | none => some (buyDegenerate 0)
    | some cur =>
      if env.history.length < 2 then some (buyDegenerate cur)
      else some (buyMain env cur)

/-- Inputs of one `get_sell_score` evaluation. -/
structure SellEnv where
  playerExists : Bool
  latest : Option Int
  history : List PriceSample
  buyPrice : Int
  pulse : Option Pulse
  longterm : LongtermFetch
  now : ℚ
  deriving Repr, DecidableEq

/-- `int(current_price * 0.95)`: post-tax sale proceeds. -/
def sellAfterTax (currentPrice : Int) : Int :=
  pyTrunc ((currentPrice : ℚ) * (95/100))

/-- `profit_pct = (profit / buy_price * 100) if buy_price else 0`. -/
def profitPct (profit buyPrice : Int) : ℚ :=
  if buyPrice = 0 then 0 else (profit : ℚ) / buyPrice * 100

/-- Profit component of the sell score: `(score, reasons, warnings)`. -/
def sellProfitBlock (pct : ℚ) (profit : Int) : Int × List Note × List Note :=
  if pct ≥ 20 then (25, [.profitExcellent pct profit], [])
  else if pct ≥ 10 then (15, [.profitGood pct profit], [])
  else if pct ≥ 5 then (5, [.profitModest pct profit], [])
  else if pct ≤ -10 then (-20, [], [.losingConsiderCutting (-pct)])
  else if pct < 0 then (-10, [], [.currentlyDown (-pct)])
  else (0, [], [])

/-- The `v2_sell_map` velocity component of the sell score: score and
whether the message lands in `reasons` (`true`) or `warnings`. -/
def sellVelocityMap (s : VState) : Int × Bool :=
  match s with
  | .FREEFALL => (20, true)
  | .FALLING => (12, true)
  | .DECELERATING => (8, true)
  | .STABLE => (5, true)
  | .BOTTOMING => (-3, false)
  | .RISING => (-5, false)
  | .SURGING => (-10, false)
  | .CHOPPY => (0, true)

/-- Market component of the sell score (inverted sense vs buy). -/
def sellMarketScore (pulse : Option Pulse) : Int :=
  match pulse with
  | none => 0
  | some pu =>
    match pu.status with
    | .CRASHING => 15
    | .INFLATED => 10
    | .CRASHED => -15
    | _ => 0

/-- Reasons appended by the sell market block. -/
def sellMarketReasons (pulse : Option Pulse) : List Note :=
  match pulse with
  | none => []
  | some pu =>
    match pu.status with
    | .CRASHING => [.sellMarketCrashing]
    | .INFLATED => [.sellMarketInflated]
    | _ => []

/-- Warnings appended by the sell market block. -/
def sellMarketWarnings (pulse : Option Pulse) : List Note :=
  match pulse with
  | none => []
  | some pu =>
    match pu.status with
    | .CRASHED => [.sellMarketCrashed]
    | _ => []

/-- Historical-position block of the sell score.  NOTE: unlike the buy
path, a failed fetch adds *no* warning here (`except: pass`). -/
def sellPositionBlock (fetch : LongtermFetch) : Int × List Note × List Note :=
  match fetch with
  | .fail => (0, [], [])
  | .ok none => (0, [], [])
  | .ok (some lt) =>
    if lt.dataPoints ≥ 30 then
      let pos := lt.positionInRange
      if pos ≥ 80 then (15, [.nearAllTimeHigh pos], [])
      else if pos ≥ 60 then (8, [.sellUpperRange pos], [])
      else if pos ≤ 20 then (-15, [], [.nearFloor pos])
      else (0, [], [])
    else (0, [], [])

/-- The velocity analysis used on the sell path. -/
def sellVelocity (env : SellEnv) (cur : Int) : Option VelocityAnalysisV2 :=
  calculateVelocityV2 env.history (some cur) env.now

/-- Sell velocity component score (0 when the analysis is unavailable). -/
def sellVelocityScore (env : SellEnv) (cur : Int) : Int :=
  match sellVelocity env cur with
  | none => 0
  | some v => (sellVelocityMap v.state).1

/-- Notes contributed by the sell velocity component. -/
def sellVelocityNotes (env : SellEnv) (cur : Int) : List Note × List Note :=
  match sellVelocity env cur with
  | none => ([], [])
  | some v =>
    if (sellVelocityMap v.state).2 then ([.sellVelocityNote v.state v.description], [])
    else ([], [.sellVelocityNote v.state v.description])

/-- The raw (pre-clamp) sell score: base 50 plus profit, velocity,
market and position components. -/
def sellRawScore (env : SellEnv) (cur : Int) : Int :=
  let profit := sellAfterTax cur - env.buyPrice
  50 + (sellProfitBlock (profitPct profit env.buyPrice) profit).1 +
    sellVelocityScore env cur + sellMarketScore env.pulse +
    (sellPositionBlock env.longterm).1

/-- `score = max(0, min(100, score))` on the sell path. -/
def sellClamped (env : SellEnv) (cur : Int) : Int :=
  max 0 (min 100 (sellRawScore env cur))

/-- Mapping of the final sell score to a category and recommendation
(note both the ≥45 band and the <30 band map to HOLD). -/
def sellCategory (score : Int) (cur : Int) (pct : ℚ) : SignalType × RecNote :=
  if score ≥ 75 then (.STRONG_SELL, .takeProfitAt cur pct)
  else if score ≥ 60 then (.SELL, .goodTimeToSellAt cur)
  else if score ≥ 45 then (.HOLD, .couldSellNotOptimal)
  else if score ≥ 30 then (.WAIT, .waitForBetterExit)
  else (.HOLD, .badTimingHoldOrCut)

/-- `SmartSignals.get_sell_score`: `none` when the player lookup fails
*or the latest price is missing* (there is no insufficient-data
degenerate result on the sell path); otherwise the signal plus the
logged component breakdown. -/
def getSellScore (env : SellEnv) : Option (TradeSignal × SellComponents) :=
  if env.playerExists = false then none
  else
    match env.latest with
    | none => none
    | some cur =>
      let profit := sellAfterTax cur - env.buyPrice
      let pct := profitPct profit env.buyPrice
      let pb := sellProfitBlock pct profit
      let vn := sellVelocityNotes env cur
      let mkt := sellMarketScore env.pulse
      let pos := sellPositionBlock env.longterm
      let score := sellClamped env cur
      some
        ({ signalType := (sellCategory score cur pct).1
           score := score
           reasons := pb.2.1 ++ vn.1 ++ sellMarketReasons env.pulse ++ pos.2.1
           warnings := pb.2.2 ++ vn.2 ++ sellMarketWarnings env.pulse ++ pos.2.2
           currentPrice := cur
           recommendation := (sellCategory score cur pct).2
           velocity := sellVelocity env cur
           confidence := .MEDIUM },
         { base := 50
           profit := pb.1
           velocity := sellVelocityScore env cur
           market := mkt
           position := pos.1 })

/-- Stable descending sort by score (Python
`opportunities.sort(key=lambda x: x.score, reverse=True)`). -/
def sortByScoreDesc (l : List TradeSignal) : List TradeSignal :=
  l.mergeSort (fun a b => b.score ≤ a.score)

/-- `SmartSignals.scan_buy_opportunities` over the per-player
evaluation environments: score each tracked player, keep the signals
with `score ≥ min_score`, sort by score descending. -/
def scanBuyOpportunities (envs : List BuyEnv) (minScore : Int) : List TradeSignal :=
  sortByScoreDesc (envs.filterMap (fun e =>
    match getBuyScore e with
    | some o => if o.signal.score ≥ minScore then some o.signal else none
    | none => none))

/-- `SmartSignals.scan_sell_opportunities` over the per-position
evaluation environments. -/
def scanSellOpportunities (envs : List SellEnv) (minScore : Int) : List TradeSignal :=
  sortByScoreDesc (envs.filterMap (fun e =>
    match getSellScore e with
    | some o => if o.1.score ≥ minScore then some o.1 else none
    | none => none))

/-! ## Theorems for the claims -/

/-- A newest-first 3-sample series (ages 1h, 2h and 20h at `now = 100`)
whose 6h lookback window `[3h, 9h]` contains no sample while the 24h
window `[12h, 36h]` does. -/
def sparseSeries : List PriceSample := [⟨990, 99⟩, ⟨990, 98⟩, ⟨800, 80⟩]

/-- C1, counterexample.  The claim fails on the code in two ways.
(1) Boundary: with prior `{READY, score 80, price 1000, t=0}` and the
current price exactly `0.97 × 1000 = 970` at `now = 1` (elapsed 1h < 2h),
the claim requires output readiness READY with score `max(75, 40) = 75`;
the code tests `price_change_pct > -3.0` *strictly*, the sticky rule does
not fire, and the accepted downgrade emits `(STABLE, WAIT, 40)`.
(2) Fall-through: when the fresh readiness is itself READY (price
unchanged, elapsed 1h), the sticky branch is skipped
(`new_readiness != "READY"` fails) and the equal-ordinal path accepts the
fresh score 50 instead of `max(75, 50) = 75`. -/
theorem c1_sticky_ready_counterexample :
    applyHysteresis (some ⟨.STABLE, .READY, 80, 1000, 0⟩) .STABLE .WAIT 40 970 1 =
      (.STABLE, .WAIT, 40) ∧
    applyHysteresis (some ⟨.STABLE, .READY, 80, 1000, 0⟩) .STABLE .READY 50 1000 1 =
      (.STABLE, .READY, 50) := by
  constructor <;> norm_num [applyHysteresis, priceChangePct, readinessLevel]

/-- C1, amended.  If the prior readiness is READY, the elapsed time
since the prior update is less than 2 hours, and the price-change
percentage is *strictly* greater than −3 (for a positive prior price:
current price strictly greater than 0.97 × prior price), then the output
readiness is READY regardless of the fresh readiness; the output score
equals `max(priorScore − 5, freshScore)` when the fresh readiness is not
READY (sticky branch), and equals the fresh score when the fresh
readiness is READY (equal-ordinal acceptance, prior state not kept). -/
theorem c1_sticky_ready_amended
    (prev : PlayerState) (ns : VState) (nr : Readiness) (nsc : Int)
    (cur : Int) (now : ℚ)
    (hready : prev.readiness = .READY)
    (htime : now - prev.updatedAt < 2)
    (hprice : priceChangePct prev.price cur > -3) :
    (applyHysteresis (some prev) ns nr nsc cur now).2.1 = .READY ∧
    (nr ≠ .READY →
      applyHysteresis (some prev) ns nr nsc cur now =
        (prev.state, .READY, max (prev.score - 5) nsc)) ∧
    (nr = .READY →
      applyHysteresis (some prev) ns nr nsc cur now = (ns, .READY, nsc)) := by
  by_cases hnr : nr = Readiness.READY
  · subst hnr
    have hcond : ¬(prev.readiness = Readiness.READY ∧ now - prev.updatedAt < 2 ∧
        priceChangePct prev.price cur > -3 ∧ Readiness.READY ≠ Readiness.READY) := by
      simp
    refine ⟨?_, by simp, fun _ => ?_⟩ <;>
      simp [applyHysteresis, hcond, hready, readinessLevel]
  · have hcond : prev.readiness = Readiness.READY ∧ now - prev.updatedAt < 2 ∧
        priceChangePct prev.price cur > -3 ∧ nr ≠ Readiness.READY :=
      ⟨hready, htime, hprice, hnr⟩
    refine ⟨?_, fun _ => ?_, fun h => absurd h hnr⟩ <;>
      simp [applyHysteresis, hcond]

/-- C1, witness for the amended theorem: prior
`{STABLE, READY, 80, price 1000, t=0}`, fresh `(STABLE, WAIT, 40)` at
current price 980 (a 2% drop) and `now = 1`: output is
`(STABLE, READY, 75)`. -/
theorem c1_sticky_ready_amended_witness :
    applyHysteresis (some ⟨.STABLE, .READY, 80, 1000, 0⟩) .STABLE .WAIT 40 980 1 =
      (.STABLE, .READY, 75) := by
  have h := (c1_sticky_ready_amended ⟨.STABLE, .READY, 80, 1000, 0⟩ .STABLE .WAIT 40 980 1
    rfl (by norm_num) (by norm_num [priceChangePct])).2.1 (by decide)
  rw [h]; norm_num

/-- C2.  With an existing prior state and the sticky-READY conditions
not all holding, on the ordinal scale AVOID=0 < WAIT=1 < ALMOST=2 <
READY=3: an upgrade is accepted exactly when `freshScore − priorScore ≥
10`, a downgrade exactly when `freshScore − priorScore ≤ −15`, equal
ordinals accept the fresh triple, and a rejection re-emits the prior
`(state, readiness, score)` unchanged. -/
theorem c2_hysteresis_thresholds
    (prev : PlayerState) (ns : VState) (nr : Readiness) (nsc : Int)
    (cur : Int) (now : ℚ)
    (hnosticky : ¬(prev.readiness = .READY ∧ now - prev.updatedAt < 2 ∧
      priceChangePct prev.price cur > -3)) :
    (readinessLevel nr > readinessLevel prev.readiness →
      (nsc - prev.score ≥ 10 →
        applyHysteresis (some prev) ns nr nsc cur now = (ns, nr, nsc)) ∧
      (nsc - prev.score < 10 →
        applyHysteresis (some prev) ns nr nsc cur now =
          (prev.state, prev.readiness, prev.score))) ∧
    (readinessLevel nr < readinessLevel prev.readiness →
      (nsc - prev.score ≤ -15 →
        applyHysteresis (some prev) ns nr nsc cur now = (ns, nr, nsc)) ∧
      (nsc - prev.score > -15 →
        applyHysteresis (some prev) ns nr nsc cur now =
          (prev.state, prev.readiness, prev.score))) ∧
    (readinessLevel nr = readinessLevel prev.readiness →
      applyHysteresis (some prev) ns nr nsc cur now = (ns, nr, nsc)) := by
  have hcond : ¬(prev.readiness = Readiness.READY ∧ now - prev.updatedAt < 2 ∧
      priceChangePct prev.price cur > -3 ∧ nr ≠ Readiness.READY) := by
    rintro ⟨h1, h2, h3, -⟩
    exact hnosticky ⟨h1, h2, h3⟩
  refine ⟨fun hup => ⟨fun hacc => ?_, fun hrej => ?_⟩,
    fun hdn => ⟨fun hacc => ?_, fun hrej => ?_⟩, fun heq => ?_⟩ <;>
    simp only [applyHysteresis, hcond, if_false, if_neg hcond] <;>
    split_ifs <;> first | rfl | omega

/-- C2, witness: prior `{WAIT, score 50}`, fresh `{ALMOST, score 55}`
(Δ = +5 < 10): the upgrade is rejected and the prior triple re-emitted. -/
theorem c2_hysteresis_thresholds_witness :
    applyHysteresis (some ⟨.STABLE, .WAIT, 50, 100, 0⟩) .STABLE .ALMOST 55 100 1 =
      (.STABLE, .WAIT, 50) :=
  ((c2_hysteresis_thresholds ⟨.STABLE, .WAIT, 50, 100, 0⟩ .STABLE .ALMOST 55 100 1
    (by rintro ⟨h, -, -⟩; exact Readiness.noConfusion h)).1 (by decide)).2 (by decide)

/-- A series with fewer than 3 samples yields no velocity analysis. -/
theorem calculateVelocityV2_of_short (prices : List PriceSample) (c : Option Int)
    (t : ℚ) (h : prices.length < 3) : calculateVelocityV2 prices c t = none := by
  match prices with
  | [] => rfl
  | p0 :: rest => simp only [calculateVelocityV2, if_pos h]

/-- A concrete buy evaluation that hysteresis *rejects*: two-sample
history (so the fresh velocity analysis is `none`, readiness WAIT,
clamped fresh score 40), prior state `{STABLE, ALMOST, 50, price 1000,
t=0}` — a downgrade by 10 points, less than the 15 required. -/
def buyRejectedEnv : BuyEnv :=
  { playerExists := true
    latest := some 900
    history := [⟨900, 1⟩, ⟨950, 0⟩]
    pulse := none
    longterm := .ok none
    prior := some ⟨.STABLE, .ALMOST, 50, 1000, 0⟩
    now := 1 }

/-- C3, counterexample.  On the rejected evaluation `buyRejectedEnv` the
code still overwrites the persisted state: the write keeps the prior
`(state, readiness, score) = (STABLE, ALMOST, 50)` but refreshes the
stored price to the current price 900 and `updated_at` to `now = 1`,
so the persisted record is *not* left unchanged (the prior had price
1000 and time 0). -/
theorem c3_persistence_counterexample :
    buySmoothed buyRejectedEnv 900 = (.STABLE, .ALMOST, 50) ∧
    (getBuyScore buyRejectedEnv).map BuyOutcome.saved =
      some (some ⟨.STABLE, .ALMOST, 50, 900, 1⟩) ∧
    some (⟨.STABLE, .ALMOST, 50, 900, 1⟩ : PlayerState) ≠ buyRejectedEnv.prior := by
  exact ⟨by decide, by decide, by decide⟩

/-- C3, amended.  The persisted per-player state is overwritten on
*every* evaluation that reaches the scoring path — first, accepted and
rejected alike — with the smoothed `(state, readiness, score)` plus the
current price and evaluation time; in particular a rejected evaluation
re-persists the prior triple but refreshes the stored price and
`updated_at`.  Only the insufficient-data early return (no latest price
or fewer than 2 history samples) skips the write. -/
theorem c3_persistence_amended :
    (∀ env out, getBuyScore env = some out →
      (out.saved = none ↔ (env.latest = none ∨ env.history.length < 2))) ∧
    (∀ env cur out, getBuyScore env = some out → env.latest = some cur →
      ¬ env.history.length < 2 →
      out.saved = some (mkSavedState (buySmoothed env cur) cur env.now)) ∧
    (∀ env cur out prev, getBuyScore env = some out → env.latest = some cur →
      ¬ env.history.length < 2 → env.prior = some prev →
      buySmoothed env cur = (prev.state, prev.readiness, prev.score) →
      out.saved = some ⟨prev.state, prev.readiness, prev.score, cur, env.now⟩) := by
  have hchar : ∀ env cur out, getBuyScore env = some out → env.latest = some cur →
      ¬ env.history.length < 2 →
      out.saved = some (mkSavedState (buySmoothed env cur) cur env.now) := by
    intro env cur out h hl hlen
    rw [getBuyScore] at h
    rcases hp : env.playerExists with _ | _
    · rw [hp] at h; simp at h
    · rw [hp] at h
      rw [hl] at h
      simp only [Bool.true_eq_false, if_false, hlen, if_neg hlen] at h
      cases h
      simp [buyMain]
  refine ⟨?_, hchar, ?_⟩
  · intro env out h
    rw [getBuyScore] at h
    rcases hp : env.playerExists with _ | _
    · rw [hp] at h; simp at h
    · rw [hp] at h
      rcases hl : env.latest with _ | cur
      · rw [hl] at h
        simp only [Bool.true_eq_false, if_false] at h
        cases h
        simp [buyDegenerate]
      · rw [hl] at h
        by_cases hlen : env.history.length < 2
        · simp only [Bool.true_eq_false, if_false, hlen, if_true] at h
          cases h
          simp [buyDegenerate, hlen]
        · simp only [Bool.true_eq_false, if_false, hlen, if_false] at h
          cases h
          simp [buyMain, hlen]
  · intro env cur out prev h hl hlen hprev hsm
    rw [hchar env cur out h hl hlen, hsm]
    rfl

/-- C3, witness for the amended theorem, at the rejected evaluation
`buyRejectedEnv`: the written record is the prior triple with price 900
and time 1. -/
theorem c3_persistence_amended_witness :
    (buyMain buyRejectedEnv 900).saved =
      some ⟨.STABLE, .ALMOST, 50, 900, 1⟩ :=
  c3_persistence_amended.2.2 buyRejectedEnv 900 (buyMain buyRejectedEnv 900)
    ⟨.STABLE, .ALMOST, 50, 1000, 0⟩ (by decide) rfl (by decide) rfl (by decide)

/-- C4, counterexample.  A 2-sample PriceSeries (fewer than 3 samples)
does *not* yield the degenerate score-0 result: the buy path's guard is
`len(history) < 2`, so with 2 samples scoring proceeds (velocity `none`,
all components 0) and emits score 40, category WAIT, with *no*
insufficient-data reason; the sell path has no insufficient-data branch
at all and emits base-score 50, category HOLD (here with a break-even
position: buy price 950, current 1000, post-tax proceeds 950). -/
theorem c4_insufficient_data_counterexample :
    (getBuyScore ⟨true, some 1000, [⟨1000, 1⟩, ⟨1000, 0⟩], none, .ok none, none, 1⟩).map
        (fun o => (o.signal.score, o.signal.signalType, o.signal.reasons)) =
      some (40, .WAIT, []) ∧
    (getSellScore ⟨true, some 1000, [⟨1000, 1⟩, ⟨1000, 0⟩], 950, none, .ok none, 1⟩).map
        (fun r => (r.1.score, r.1.signalType, r.1.reasons, r.1.warnings)) =
      some (50, .HOLD, [], []) := by
  constructor
  · decide
  · have hvel : calculateVelocityV2 [⟨1000, 1⟩, ⟨1000, 0⟩] (some 1000) 1 = none :=
      calculateVelocityV2_of_short _ _ _ (by decide)
    have htax : sellAfterTax 1000 = 950 := by
      norm_num [sellAfterTax, pyTrunc]
    simp only [getSellScore, Option.map]
    norm_num [sellVelocity, hvel, htax, sellClamped, sellRawScore, sellProfitBlock,
      profitPct, sellVelocityScore, sellVelocityNotes, sellMarketScore,
      sellMarketReasons, sellMarketWarnings, sellPositionBlock, sellCategory]

/-- C4, amended.  The buy path returns the degenerate result (score 0,
WAIT, reason insufficient-data, nothing persisted) exactly when the
latest price is missing or the history has fewer than **2** samples (not
3); with 2 samples it scores normally from the base.  The sell path has
no degenerate insufficient-data result: it returns `none` when the
latest price is missing and otherwise always produces a signal, the
velocity component contributing 0 when the series has fewer than 3
samples.  Neither path raises (both are total functions here). -/
theorem c4_insufficient_data_amended :
    (∀ env, env.playerExists = true → env.latest = none →
      (getBuyScore env).map (fun o =>
          (o.signal.score, o.signal.signalType, o.signal.reasons, o.signal.warnings,
            o.saved)) =
        some (0, .WAIT, [.insufficientData], [.needMoreHistory], none)) ∧
    (∀ env cur, env.playerExists = true → env.latest = some cur →
      env.history.length < 2 →
      (getBuyScore env).map (fun o =>
          (o.signal.score, o.signal.signalType, o.signal.reasons, o.signal.warnings,
            o.saved)) =
        some (0, .WAIT, [.insufficientData], [.needMoreHistory], none)) ∧
    (∀ env, env.playerExists = true → env.latest = none → getSellScore env = none) ∧
    (∀ env cur, env.playerExists = true → env.latest = some cur →
      (getSellScore env).isSome = true ∧
      (env.history.length < 3 →
        (getSellScore env).map (fun r => r.2.velocity) = some 0)) := by
  refine ⟨?_, ?_, ?_, ?_⟩
  · intro env hp hl
    simp [getBuyScore, hp, hl, buyDegenerate]
  · intro env cur hp hl hlen
    simp [getBuyScore, hp, hl, hlen, buyDegenerate]
  · intro env hp hl
    simp [getSellScore, hp, hl]
  · intro env cur hp hl
    have hvel : env.history.length < 3 → sellVelocity env cur = none := fun h =>
      calculateVelocityV2_of_short _ _ _ h
    constructor
    · simp [getSellScore, hp, hl]
    · intro hlen
      simp [getSellScore, hp, hl, sellVelocityScore, hvel hlen]

/-- C4, witness for the amended theorem at concrete inputs: a buy
evaluation with no latest price yields the degenerate result; a sell
evaluation with no latest price yields `none`; a sell evaluation with a
latest price yields a signal. -/
theorem c4_insufficient_data_amended_witness :
    (getBuyScore ⟨true, none, [], none, .ok none, none, 0⟩).map (fun o =>
        (o.signal.score, o.signal.signalType, o.signal.reasons, o.signal.warnings,
          o.saved)) =
      some (0, .WAIT, [.insufficientData], [.needMoreHistory], none) ∧
    getSellScore ⟨true, none, [], 100, none, .ok none, 0⟩ = none ∧
    (getSellScore ⟨true, some 1000, [⟨1000, 1⟩, ⟨1000, 0⟩], 950, none, .ok none, 1⟩).isSome =
      true :=
  ⟨c4_insufficient_data_amended.1 _ rfl rfl,
   c4_insufficient_data_amended.2.2.1 _ rfl rfl,
   (c4_insufficient_data_amended.2.2.2 _ 1000 rfl rfl).1⟩

/-- C6, counterexample.  On `sparseSeries` (current price 1000, `now =
100`) the 6h window is unavailable, the 24h window is available with
computed velocity 1.25 %/h, yet the emitted 6h velocity equals the *2h*
velocity 1.01 %/h — the code falls back to the next **smaller** window
(`v_6h = calc_velocity('6h') or v_2h`), not to the next larger available
one (which would give 1.25). -/
theorem c6_window_fallback_counterexample :
    findWindow sparseSeries 100 6 = none ∧
    (calculateVelocityV2 sparseSeries (some 1000) 100).map
        (fun a => (a.velocity_2h, a.velocity_6h, a.velocity_24h)) =
      some (101/100, 101/100, 5/4) := by
  have hfw6 : findWindow sparseSeries 100 6 = none := by
    norm_num [sparseSeries, findWindow, List.find?]
  have hfw1 : findWindow sparseSeries 100 1 = some (990, 1) := by
    norm_num [sparseSeries, findWindow, List.find?]
  have hfw2 : findWindow sparseSeries 100 2 = some (990, 1) := by
    norm_num [sparseSeries, findWindow, List.find?]
  have hfw24 : findWindow sparseSeries 100 24 = some (800, 20) := by
    norm_num [sparseSeries, findWindow, List.find?]
  have hv2 : vel2h sparseSeries 1000 100 = 100/99 := by
    rw [vel2h, hfw2]; norm_num [calcVelocity]
  have hv6 : vel6h sparseSeries 1000 100 = 100/99 := by
    rw [vel6h, hfw6]
    norm_num [calcVelocity, hv2]
  have hv24 : vel24h sparseSeries 1000 100 = 5/4 := by
    rw [vel24h, hfw24]
    norm_num [calcVelocity]
  have hr2 : round2 (100/99 : ℚ) = 101/100 := by
    rw [round2, roundHalfEven]
    rw [show ⌊(100:ℚ)/99 * 100⌋ = 101 from by
      rw [Int.floor_eq_iff]; norm_num]
    norm_num
  have hr24 : round2 (5/4 : ℚ) = 5/4 := by
    rw [round2, roundHalfEven]
    rw [show ⌊(5:ℚ)/4 * 100⌋ = 125 from by
      rw [Int.floor_eq_iff]; norm_num]
    norm_num
  refine ⟨hfw6, ?_⟩
  rw [show calculateVelocityV2 sparseSeries (some 1000) 100 =
      some (mkVelocityAnalysis sparseSeries 1000 100) from by
    simp [sparseSeries, calculateVelocityV2, currentOf]]
  rw [Option.map_some']
  simp only [mkVelocityAnalysis]
  rw [hv2, hv6, hv24, hr2, hr24]

/-- C6, amended.  Every selected window sample has age in
`[0.5×target, 1.5×target]` hours (the first such sample in newest-first
order); but the fallbacks run toward *smaller* windows and also trigger
on an exactly-zero computed velocity: `v_6h` falls back to `v_2h` (not
to the next larger available window) whenever the 6h computation is
unavailable or yields 0, `v_24h` falls back to `v_6h` likewise, and the
1h/2h windows have no fallback (an unavailable window contributes
velocity 0).  The emitted analysis carries these values rounded to two
decimals. -/
theorem c6_window_selection_amended :
    (∀ prices now t p h, findWindow prices now t = some (p, h) →
      t * (1/2) ≤ h ∧ h ≤ t * (3/2)) ∧
    (∀ prices current now,
      calcVelocity current (findWindow prices now 6) = 0 →
      vel6h prices current now = vel2h prices current now) ∧
    (∀ prices current now,
      calcVelocity current (findWindow prices now 24) = 0 →
      vel24h prices current now = vel6h prices current now) ∧
    (∀ p0 rest cur now, 2 ≤ rest.length →
      (calculateVelocityV2 (p0 :: rest) cur now).map
          (fun a => (a.velocity_2h, a.velocity_6h, a.velocity_24h)) =
        some (round2 (vel2h (p0 :: rest) (currentOf p0 cur) now),
          round2 (vel6h (p0 :: rest) (currentOf p0 cur) now),
          round2 (vel24h (p0 :: rest) (currentOf p0 cur) now))) := by
  refine ⟨?_, ?_, ?_, ?_⟩
  · intro prices now t p h hfw
    rw [findWindow] at hfw
    rcases Option.map_eq_some'.mp hfw with ⟨q, hq, hmap⟩
    have hpred := List.find?_some hq
    simp only [decide_eq_true_eq] at hpred
    cases hmap
    exact hpred
  · intro prices current now h0
    simp [vel6h, h0]
  · intro prices current now h0
    simp [vel24h, h0]
  · intro p0 rest cur now hlen
    have h3 : ¬ (p0 :: rest).length < 3 := by simp; omega
    simp only [calculateVelocityV2, h3, if_false, Option.map_some']
    simp only [mkVelocityAnalysis]

/-- C6, witness: on `sparseSeries` the 24h window sample (price 800,
age 20h) satisfies the age bounds, and the 6h velocity falls back to
the 2h velocity. -/
theorem c6_window_selection_amended_witness :
    ((24:ℚ) * (1/2) ≤ 20 ∧ (20:ℚ) ≤ 24 * (3/2)) ∧
    vel6h sparseSeries 1000 100 = vel2h sparseSeries 1000 100 := by
  constructor
  · exact c6_window_selection_amended.1 sparseSeries 100 24 800 20
      (by norm_num [sparseSeries, findWindow, List.find?])
  · exact c6_window_selection_amended.2.1 sparseSeries 1000 100
      (by norm_num [calcVelocity, sparseSeries, findWindow, List.find?])

/-- A newest-first double-dip series over 10 hourly samples whose
*second* (more recent, at ts 7) dip minimum 95 is more than 2% above the
first dip minimum 90 (at ts 2) — a genuine higher-lows pattern. -/
def higherLowsSeries : List PriceSample :=
  [⟨100, 9⟩, ⟨100, 8⟩, ⟨95, 7⟩, ⟨100, 6⟩, ⟨100, 5⟩, ⟨100, 4⟩, ⟨100, 3⟩,
   ⟨90, 2⟩, ⟨100, 1⟩, ⟨100, 0⟩]

/-- The mirror image: the second (more recent) dip minimum 90 is *below*
the first dip minimum 95 — lower lows, not higher lows. -/
def lowerLowsSeries : List PriceSample :=
  [⟨100, 9⟩, ⟨100, 8⟩, ⟨90, 7⟩, ⟨100, 6⟩, ⟨100, 5⟩, ⟨100, 4⟩, ⟨100, 3⟩,
   ⟨95, 2⟩, ⟨100, 1⟩, ⟨100, 0⟩]

/-- C7, evaluation at the failing input.  `_detect_higher_lows` receives
the series newest-first (the database sorts `recorded_at` descending and
`calculate_velocity_v2`'s docstring says "ordered newest first"), so
`lows[:mid]` — named `early_lows` in the source — is really the most
recent half.  The comparison `avg_recent > avg_early * 1.02` therefore
fires exactly backwards: the genuine higher-lows double dip yields
`false`, and the lower-lows double dip yields `true`, contradicting the
function's own docstring ("each successive dip doesn't go as low"), its
inline comment ("Recent lows should be at least 2% higher than early
lows"), and the spec. -/
theorem c7_higher_lows_at_failing_input :
    detectHigherLows higherLowsSeries 9 = false ∧
    detectHigherLows lowerLowsSeries 9 = true := by
  constructor <;>
    norm_num [higherLowsSeries, lowerLowsSeries, detectHigherLows, localMinima,
      List.filter]

/-- Int clamp `max(0, min(100, x))` lands in `[0, 100]`. -/
theorem clampBounds (x : Int) : 0 ≤ max 0 (min 100 x) ∧ max 0 (min 100 x) ≤ 100 := by
  omega

/-- The hysteresis output score stays in `[0, 100]` provided the fresh
score and any stored prior score are. -/
theorem applyHysteresis_score_bounds (prev? : Option PlayerState) (ns : VState)
    (nr : Readiness) (nsc cur : Int) (now : ℚ)
    (hns : 0 ≤ nsc ∧ nsc ≤ 100)
    (hp : ∀ p, prev? = some p → 0 ≤ p.score ∧ p.score ≤ 100) :
    0 ≤ (applyHysteresis prev? ns nr nsc cur now).2.2 ∧
      (applyHysteresis prev? ns nr nsc cur now).2.2 ≤ 100 := by
  match prev? with
  | none => simpa [applyHysteresis] using hns
  | some p =>
    have hps := hp p rfl
    simp only [applyHysteresis]
    split_ifs <;> simp <;> omega

/-- C5.  Every emitted score is an integer in `[0, 100]`: on the sell
path unconditionally (plain clamp), and on the buy path provided any
stored prior score is itself in `[0, 100]` (the hysteresis smoothing can
re-emit the stored score or `max(priorScore − 5, freshScore)`, so a
corrupted store could escape the range; the range is an inductive
invariant of the store since only smoothed scores are written back). -/
theorem c5_score_range
    : (∀ env out, getBuyScore env = some out →
        (∀ p, env.prior = some p → 0 ≤ p.score ∧ p.score ≤ 100) →
        0 ≤ out.signal.score ∧ out.signal.score ≤ 100) ∧
      (∀ env r, getSellScore env = some r → 0 ≤ r.1.score ∧ r.1.score ≤ 100) := by
  constructor
  · intro env out h hp
    rw [getBuyScore] at h
    rcases hpe : env.playerExists with _ | _
    · rw [hpe] at h; simp at h
    · rw [hpe] at h
      rcases hl : env.latest with _ | cur
      · rw [hl] at h
        simp only [Bool.true_eq_false, if_false] at h
        cases h
        simp [buyDegenerate]
      · rw [hl] at h
        by_cases hlen : env.history.length < 2
        · simp only [Bool.true_eq_false, if_false, hlen, if_true] at h
          cases h
          simp [buyDegenerate]
        · simp only [Bool.true_eq_false, if_false, hlen, if_false] at h
          cases h
          have hb : 0 ≤ buyClamped env cur ∧ buyClamped env cur ≤ 100 := by
            rw [buyClamped]; exact clampBounds _
          simpa [buyMain, buySmoothed] using
            applyHysteresis_score_bounds env.prior (buyRawState env cur)
              (buyRawReadiness env cur) (buyClamped env cur) cur env.now hb hp
  · intro env r h
    rw [getSellScore] at h
    rcases hpe : env.playerExists with _ | _
    · rw [hpe] at h; simp at h
    · rw [hpe] at h
      rcases hl : env.latest with _ | cur
      · rw [hl] at h; simp at h
      · rw [hl] at h
        simp only [Bool.true_eq_false, if_false] at h
        cases h
        simpa only [sellClamped] using clampBounds (sellRawScore env cur)

/-- Characterization of a buy evaluation that reaches the scoring path. -/
theorem getBuyScore_out (env : BuyEnv) (cur : Int) (out : BuyOutcome)
    (h : getBuyScore env = some out) (hl : env.latest = some cur)
    (hlen : ¬ env.history.length < 2) : out = buyMain env cur := by
  rw [getBuyScore] at h
  rcases hpe : env.playerExists with _ | _
  · rw [hpe] at h; simp at h
  · rw [hpe, hl] at h
    simp only [Bool.true_eq_false, if_false, hlen] at h
    exact (Option.some.inj h).symm

/-- C8, counterexample.  With the MarketContext unavailable (`pulse =
none`) and the RangeSummary fetch returning `None`, the buy evaluation
zeroes both components but attaches *no* warning about either missing
dependency (the only warning is the no-velocity-data one from the
2-sample history); with the RangeSummary fetch *raising*, the sell
evaluation zeroes the component and attaches no warning at all. -/
theorem c8_missing_dependency_counterexample :
    (getBuyScore ⟨true, some 1000, [⟨1000, 1⟩, ⟨1000, 0⟩], none, .ok none, none, 1⟩).map
        (fun o => (o.signal.warnings, o.components)) =
      some ([.noVelocityData], some ⟨40, 0, 0, 0, 0⟩) ∧
    (getSellScore ⟨true, some 1000, [⟨1000, 1⟩, ⟨1000, 0⟩], 950, none, .fail, 1⟩).map
        (fun r => (r.1.warnings, r.2.market, r.2.position)) =
      some ([], 0, 0) := by
  constructor
  · decide
  · have hvel : calculateVelocityV2 [(⟨1000, 1⟩ : PriceSample), ⟨1000, 0⟩] (some 1000) 1 = none :=
      calculateVelocityV2_of_short _ _ _ (by decide)
    have htax : sellAfterTax 1000 = 950 := by
      norm_num [sellAfterTax, pyTrunc]
    simp only [getSellScore, Option.map]
    norm_num [sellVelocity, hvel, htax, sellProfitBlock, profitPct,
      sellVelocityNotes, sellMarketScore, sellMarketWarnings, sellPositionBlock]

/-- C8, amended.  A missing MarketContext or RangeSummary zeroes the
corresponding component and scoring always completes, but the warning
behaviour differs from the claim: no warning is ever attached for a
missing MarketContext (buy or sell), and the RangeSummary warning is
attached only on the buy path and only when the fetch *raises* — a fetch
returning `None` adds nothing, and the sell path never warns. -/
theorem c8_missing_dependencies_amended :
    (∀ env cur out, getBuyScore env = some out → env.latest = some cur →
      ¬ env.history.length < 2 →
      (env.pulse = none →
        out.components.map BuyComponents.market = some 0 ∧
        buyMarketReasons env.pulse = [] ∧ buyMarketWarnings env.pulse = []) ∧
      (env.longterm = .fail →
        out.components.map BuyComponents.position = some 0 ∧
        out.components.map BuyComponents.bouncePenalty = some 0 ∧
        Note.noHistoricalRange ∈ out.signal.warnings) ∧
      (env.longterm = .ok none →
        out.components.map BuyComponents.position = some 0 ∧
        out.components.map BuyComponents.bouncePenalty = some 0 ∧
        out.signal.warnings = buyMarketWarnings env.pulse ++
          (timingScoreOf (buyVelocity env cur) (buyStab env)).2.2)) ∧
    (∀ env r, getSellScore env = some r →
      (env.pulse = none → r.2.market = 0 ∧ sellMarketWarnings env.pulse = []) ∧
      (env.longterm = .fail → r.2.position = 0 ∧
        (sellPositionBlock env.longterm).2.2 = [])) ∧
    (∀ env, env.playerExists = true → (getBuyScore env).isSome = true) ∧
    (∀ env cur, env.playerExists = true → env.latest = some cur →
      (getSellScore env).isSome = true) := by
  refine ⟨?_, ?_, ?_, ?_⟩
  · intro env cur out h hl hlen
    cases getBuyScore_out env cur out h hl hlen
    refine ⟨fun hpu => ?_, fun hlt => ?_, fun hlt => ?_⟩
    · simp [buyMain, hpu, buyMarketScore, buyMarketReasons, buyMarketWarnings]
    · simp [buyMain, hlt, buyLongtermBlock]
    · simp [buyMain, hlt, buyLongtermBlock]
  · intro env r h
    rw [getSellScore] at h
    rcases hpe : env.playerExists with _ | _
    · rw [hpe] at h; simp at h
    · rw [hpe] at h
      rcases hl : env.latest with _ | cur
      · rw [hl] at h; simp at h
      · rw [hl] at h
        simp only [Bool.true_eq_false, if_false] at h
        cases h
        refine ⟨fun hpu => ?_, fun hlt => ?_⟩
        · simp [hpu, sellMarketScore, sellMarketWarnings]
        · simp [hlt, sellPositionBlock]
  · intro env hp
    rw [getBuyScore, hp]
    rcases env.latest with _ | cur
    · simp
    · by_cases hlen : env.history.length < 2 <;> simp [hlen]
  · intro env cur hp hl
    rw [getSellScore, hp, hl]
    simp

/-- C8, witness for the amended theorem: a buy evaluation with a failed
RangeSummary fetch carries the no-historical-range warning and zero
position component, and scoring completes. -/
theorem c8_missing_dependencies_amended_witness :
    Note.noHistoricalRange ∈
      (buyMain ⟨true, some 1000, [⟨1000, 1⟩, ⟨1000, 0⟩], none, .fail, none, 1⟩ 1000).signal.warnings ∧
    (getBuyScore ⟨true, some 1000, [⟨1000, 1⟩, ⟨1000, 0⟩], none, .fail, none, 1⟩).isSome =
      true := by
  constructor
  · exact ((c8_missing_dependencies_amended.1
      ⟨true, some 1000, [⟨1000, 1⟩, ⟨1000, 0⟩], none, .fail, none, 1⟩ 1000 _
      (by decide) rfl (by decide)).2.1 rfl).2.2
  · exact c8_missing_dependencies_amended.2.2.1 _ rfl

/-- A 3-sample newest-first series containing a zero and a negative
price (ages 1h, 2h, 20h at `now = 100`). -/
def nonPositiveSeries : List PriceSample := [⟨10, 99⟩, ⟨0, 98⟩, ⟨-5, 80⟩]

/-- C9, counterexample.  A PriceSeries with non-positive prices is not
rejected with any typed error: the engine returns a normal analysis in
which the negative price −5 is used arithmetically for the 24h velocity
(−15 %/h) and the zero price in the 4h window silently collapses the
acceleration to 0 (`p_4h > 0` guard). -/
theorem c9_invalid_input_counterexample :
    (calculateVelocityV2 nonPositiveSeries (some 10) 100).map
        (fun a => (a.velocity_24h, a.acceleration)) = some (-15, 0) := by
  have hfw2 : findWindow nonPositiveSeries 100 2 = some (10, 1) := by
    norm_num [nonPositiveSeries, findWindow, List.find?]
  have hfw4 : findWindow nonPositiveSeries 100 4 = some (0, 2) := by
    norm_num [nonPositiveSeries, findWindow, List.find?]
  have hfw6 : findWindow nonPositiveSeries 100 6 = none := by
    norm_num [nonPositiveSeries, findWindow, List.find?]
  have hfw24 : findWindow nonPositiveSeries 100 24 = some (-5, 20) := by
    norm_num [nonPositiveSeries, findWindow, List.find?]
  have hv24 : vel24h nonPositiveSeries 10 100 = -15 := by
    rw [vel24h, hfw24]
    norm_num [calcVelocity]
  have hacc : accelerationOf nonPositiveSeries 10 100 = 0 := by
    rw [accelerationOf, hfw2, hfw4]
    norm_num
  have hr24 : round2 (-15 : ℚ) = -15 := by
    rw [round2, roundHalfEven]
    rw [show ⌊(-15 : ℚ) * 100⌋ = -1500 from by norm_num]
    norm_num
  have hr0 : round2 (0 : ℚ) = 0 := by
    rw [round2, roundHalfEven]
    norm_num
  rw [show calculateVelocityV2 nonPositiveSeries (some 10) 100 =
      some (mkVelocityAnalysis nonPositiveSeries 10 100) from by
    simp [nonPositiveSeries, calculateVelocityV2, currentOf]]
  rw [Option.map_some']
  simp only [mkVelocityAnalysis]
  rw [hv24, hacc, hr24, hr0]

/-- C9, amended.  The engine defines no typed InvalidInput error
distinct from the insufficient-data `None`: any series with at least 3
samples yields a normal analysis regardless of non-positive prices, and
a window whose reference price is exactly 0 silently contributes
velocity 0.  (Malformed timestamp *strings* are outside this embedding:
in the source they raise an untyped `ValueError` out of the engine
rather than producing a typed error.) -/
theorem c9_no_invalid_input_error_amended :
    (∀ prices cur now, 3 ≤ prices.length →
      (calculateVelocityV2 prices cur now).isSome = true) ∧
    (∀ current h, calcVelocity current (some (0, h)) = 0) := by
  constructor
  · intro prices cur now h
    rcases prices with _ | ⟨p0, rest⟩
    · simp at h
    · rw [calculateVelocityV2]
      rw [if_neg (by omega)]
      rfl
  · intro current h
    simp [calcVelocity]

/-- C9, witness: the non-positive-price series yields a normal analysis,
and a zero reference price yields velocity 0. -/
theorem c9_no_invalid_input_error_amended_witness :
    (calculateVelocityV2 nonPositiveSeries (some 10) 100).isSome = true ∧
    calcVelocity 7 (some (0, 3)) = 0 :=
  ⟨c9_no_invalid_input_error_amended.1 nonPositiveSeries (some 10) 100 (by decide),
   c9_no_invalid_input_error_amended.2 7 3⟩

/-- The buy scan's filter-during-accumulation equals filtering the
evaluated signals by the score threshold. -/
theorem scanBuy_filterMap_eq (envs : List BuyEnv) (minScore : Int) :
    envs.filterMap (fun e =>
      match getBuyScore e with
      | some o => if o.signal.score ≥ minScore then some o.signal else none
      | none => none) =
    (envs.filterMap (fun e => (getBuyScore e).map (fun o => o.signal))).filter
      (fun s => decide (minScore ≤ s.score)) := by
  induction envs with
  | nil => rfl
  | cons e rest ih =>
    simp only [List.filterMap_cons]
    cases h : getBuyScore e with
    | none => simpa using ih
    | some o =>
      by_cases hs : o.signal.score ≥ minScore
      · simpa [hs, List.filter_cons, ge_iff_le] using ih
      · simpa [hs, List.filter_cons, ge_iff_le, not_le.mp hs] using ih

/-- The sell scan's filter-during-accumulation equals filtering the
evaluated signals by the score threshold. -/
theorem scanSell_filterMap_eq (envs : List SellEnv) (minScore : Int) :
    envs.filterMap (fun e =>
      match getSellScore e with
      | some o => if o.1.score ≥ minScore then some o.1 else none
      | none => none) =
    (envs.filterMap (fun e => (getSellScore e).map (fun o => o.1))).filter
      (fun s => decide (minScore ≤ s.score)) := by
  induction envs with
  | nil => rfl
  | cons e rest ih =>
    simp only [List.filterMap_cons]
    cases h : getSellScore e with
    | none => simpa using ih
    | some o =>
      by_cases hs : o.1.score ≥ minScore
      · simpa [hs, List.filter_cons, ge_iff_le] using ih
      · simpa [hs, List.filter_cons, ge_iff_le, not_le.mp hs] using ih

/-- C10.  Each scan returns exactly the evaluated signals whose score
meets the threshold — as a multiset (permutation of the filtered
evaluations, players whose evaluation returns `None` excluded) — sorted
in non-increasing order of score. -/
theorem c10_scan_filter_and_sort :
    (∀ envs minScore,
      (scanBuyOpportunities envs minScore).Perm
        ((envs.filterMap (fun e => (getBuyScore e).map (fun o => o.signal))).filter
          (fun s => decide (minScore ≤ s.score))) ∧
      (scanBuyOpportunities envs minScore).Pairwise
        (fun a b => b.score ≤ a.score)) ∧
    (∀ envs minScore,
      (scanSellOpportunities envs minScore).Perm
        ((envs.filterMap (fun e => (getSellScore e).map (fun o => o.1))).filter
          (fun s => decide (minScore ≤ s.score))) ∧
      (scanSellOpportunities envs minScore).Pairwise
        (fun a b => b.score ≤ a.score)) := by
  have hsorted : ∀ l : List TradeSignal,
      (sortByScoreDesc l).Pairwise (fun a b => b.score ≤ a.score) := by
    intro l
    have h := @List.sorted_mergeSort TradeSignal
      (fun a b : TradeSignal => decide (b.score ≤ a.score))
      (by intro a b c hab hbc; simp at *; omega)
      (by intro a b; simp; omega) l
    exact h.imp (by intro a b hd; simpa using hd)
  constructor
  · intro envs minScore
    refine ⟨?_, hsorted _⟩
    rw [scanBuyOpportunities, sortByScoreDesc, scanBuy_filterMap_eq]
    exact List.mergeSort_perm _ _
  · intro envs minScore
    refine ⟨?_, hsorted _⟩
    rw [scanSellOpportunities, sortByScoreDesc, scanSell_filterMap_eq]
    exact List.mergeSort_perm _ _

/-- C5, witness: the rejected buy evaluation (prior score 50 in range)
and a concrete sell evaluation both land in `[0, 100]`. -/
theorem c5_score_range_witness :
    (0 ≤ (buyMain buyRejectedEnv 900).signal.score ∧
      (buyMain buyRejectedEnv 900).signal.score ≤ 100) ∧
    (getSellScore ⟨true, some 1000, [⟨1000, 1⟩, ⟨1000, 0⟩], 950, none, .ok none, 1⟩).elim
      True (fun r => 0 ≤ r.1.score ∧ r.1.score ≤ 100) := by
  constructor
  · exact c5_score_range.1 buyRejectedEnv (buyMain buyRejectedEnv 900) (by decide)
      (by intro p hp; simp only [buyRejectedEnv] at hp; cases hp; decide)
  · cases h : getSellScore ⟨true, some 1000, [⟨1000, 1⟩, ⟨1000, 0⟩], 950, none, .ok none, 1⟩ with
    | none => trivial
    | some r => exact c5_score_range.2 _ r h
